import Mathlib

/-!
Shallow embedding of the client lifecycle / crash-recovery / routing core of
the vscode-cpptools repository, covering:

* the crash policy in `DefaultClient.createLanguageClient`'s
  `errorHandler.closed` callback (src/Extension/src/Debugger/configurations.ts,
  lines 603-624);
* the readiness gate `DefaultClient.requestWhenReady` / `notifyWhenReady`
  (lines 670-686) together with the promise-resolution semantics of
  `this.onReadyPromise` set up in the constructor (lines 510-555);
* the protocol router `createProtocolFilter`
  (src/Extension/src/LanguageServer/protocolFilter.ts);
* `DefaultClient.takeOwnership` (lines 653-664), `onInterval`
  (lines 1003-1010) and `dispose` (lines 1012-1024).

Where behaviour depends on repository code that is not shipped under src/
(clientCollection.ts, dataBinding.ts), that part is modelled from the spec and
marked as such in its doc comment.
-/

namespace CppTools

/-! ## Crash policy: `errorHandler.closed` -/

/-- `CloseAction` from vscode-languageclient; the handler always returns
`DoNotRestart`. -/
inductive CloseAction where
  | DoNotRestart
  | Restart
deriving DecidableEq, Repr

/-- The single registry operation the closed handler invokes:
`allClients.replace(this, transfer)`. -/
inductive RegistryCall where
  | replace (transfer : Bool)
deriving DecidableEq, Repr

/-- Observable outcome of one run of the `closed` crash handler:
the client's own `crashTimes` array afterwards, the `allClients.replace`
call made, the `newClient.crashTimes = this.crashTimes` assignment (when a
replacement client receives the record), the error message shown to the
user (if any), and the returned `CloseAction`. -/
structure CrashOutcome where
  newCrashTimes : List Int
  registryCall : RegistryCall
  transferredCrashTimes : Option (List Int)
  errorMessage : Option String
  closeAction : CloseAction
deriving DecidableEq, Repr

/-- The two error-message strings of the crash-loop branch
(configurations.ts lines 611-615): the multi-root wording names the
workspace folder (`serverName`), the single-root wording does not. -/
def crashMessage (multiRoot : Bool) (serverName : String) : String :=
  if multiRoot then
    "The language server for \x27" ++ serverName ++
      "\x27 crashed 5 times in the last 3 minutes. It will not be restarted."
  else
    "The language server crashed 5 times in the last 3 minutes. It will not be restarted."

/-- The `errorHandler.closed` callback (configurations.ts lines 603-624),
as a pure function of the crash record before the event, the new crash
timestamp (`Date.now()`), whether more than one workspace folder is open,
and the server name.  Timestamps are JS numbers, embedded as `Int`. -/
def errorHandlerClosed (crashTimes : List Int) (now : Int) (multiRoot : Bool)
    (serverName : String) : CrashOutcome :=
  let ct := crashTimes ++ [now]
  if ct.length < 5 then
    { newCrashTimes := ct
      registryCall := RegistryCall.replace true
      transferredCrashTimes := some ct
      errorMessage := none
      closeAction := CloseAction.DoNotRestart }
  else
    -- elapsed = this.crashTimes[this.crashTimes.length-1] - this.crashTimes[0]
    let elapsed := ct.getLastD 0 - ct.headD 0
    if elapsed ≤ 3 * 60 * 1000 then
      { newCrashTimes := ct
        registryCall := RegistryCall.replace false
        transferredCrashTimes := none
        errorMessage := some (crashMessage multiRoot serverName)
        closeAction := CloseAction.DoNotRestart }
    else
      { newCrashTimes := ct.tail
        registryCall := RegistryCall.replace true
        transferredCrashTimes := some ct.tail
        errorMessage := none
        closeAction := CloseAction.DoNotRestart }

/-- Modelled from the spec: `ClientCollection.replace` lives in
clientCollection.ts, which is not under src/.  Per the spec (section 4.5 and
4.3), `replace(session, false)` tears the session down without constructing
a live replacement that inherits its state, while `replace(session, true)`
spawns a transparent replacement. -/
def RegistryCall.tearsDownWithoutReplacement : RegistryCall → Bool
  | RegistryCall.replace b => !b

/-! ## Readiness gate: `requestWhenReady` / `notifyWhenReady`

`DefaultClient` defers calls by chaining `.then` continuations on
`this.onReadyPromise` (configurations.ts lines 670-686).  The gate state is
carried by three fields of the class: `this.languageClient` (set only in the
constructor's `onReady` success handler, line 534), `this.isSupported`
(cleared in the failure handler and in the constructor's catch, lines 542
and 549) and `this.onReadyPromise` itself (left unset when
`createLanguageClient` throws).  Promise semantics give the queue:
continuations chained on the same promise run in registration order once it
settles, and the constructor's own success/failure handler is registered
first.  Because the failure handler returns normally, `onReadyPromise` is
fulfilled even on failure, so queued continuations still run — with
`this.languageClient` still undefined. -/

/-- Rejection reasons observable by a caller of `requestWhenReady`. -/
inductive ErrKind where
  /-- `Promise.reject("Unsupported client")` (line 676). -/
  | unsupportedClient
  /-- The TypeError raised by invoking `this.languageClient.sendRequest`
  while `this.languageClient` is still undefined. -/
  | undefinedTransport
deriving DecidableEq, Repr

/-- A call submitted through the gate, identified by its protocol method
name. -/
inductive Call where
  | request (name : String)
  | notification (name : String)
deriving DecidableEq, Repr

/-- A tracked document, identified by its path segments. -/
structure Doc where
  path : List String
deriving DecidableEq, Repr

/-- Externally observable effects of `DefaultClient` operations, in
chronological order. -/
inductive Effect where
  /-- `this.languageClient.sendRequest(...)` reached the transport. -/
  | transportRequest (name : String)
  /-- `this.languageClient.sendNotification(...)` reached the transport. -/
  | transportNotification (name : String)
  /-- The promise handed to the caller rejected. -/
  | rejected (name : String) (e : ErrKind)
  /-- `this.trackedDocuments.add(document)`. -/
  | addTracked (d : Doc)
  /-- `this.configuration.checkCppProperties()`. -/
  | checkCppProperties
  /-- `this.languageClient.stop()` awaited. -/
  | stopTransport
  /-- `d.dispose()` on one entry of `this.disposables`. -/
  | disposeDisposable
  /-- `this.model[key].dispose()` over every model field. -/
  | disposeModelBindings
deriving DecidableEq, Repr

/-- The `DefaultClient` fields the gate and the lifecycle operations read
and write.  `pending` is the list of continuations chained on
`onReadyPromise`, oldest first; `disposables` counts the registered
disposables; `modelDisposed` records that every model binding was
disposed (dataBinding.ts is not under src/; modelled from the spec, which
says disposal releases the subscriptions of every field). -/
structure ClientState where
  languageClient : Bool
  configuration : Bool
  isSupported : Bool
  onReadyPromise : Bool
  pending : List Call
  trackedDocuments : List Doc
  disposables : Nat
  modelDisposed : Bool
deriving DecidableEq, Repr

/-- The state of a client right after its constructor ran without throwing:
gate pending, nothing queued, nothing tracked. -/
def initPending : ClientState :=
  { languageClient := false
    configuration := false
    isSupported := true
    onReadyPromise := true
    pending := []
    trackedDocuments := []
    disposables := 0
    modelDisposed := false }

/-- `DefaultClient.requestWhenReady` (lines 670-678). -/
def requestWhenReady (s : ClientState) (name : String) : ClientState × List Effect :=
  if s.languageClient then
    (s, [Effect.transportRequest name])
  else if s.isSupported && s.onReadyPromise then
    ({ s with pending := s.pending ++ [Call.request name] }, [])
  else
    (s, [Effect.rejected name ErrKind.unsupportedClient])

/-- `DefaultClient.notifyWhenReady` (lines 680-686). -/
def notifyWhenReady (s : ClientState) (name : String) : ClientState × List Effect :=
  if s.languageClient then
    (s, [Effect.transportNotification name])
  else if s.isSupported && s.onReadyPromise then
    ({ s with pending := s.pending ++ [Call.notification name] }, [])
  else
    (s, [])

/-- Dispatch one call through the gate according to its shape. -/
def submitCall (s : ClientState) : Call → ClientState × List Effect
  | Call.request n => requestWhenReady s n
  | Call.notification n => notifyWhenReady s n

/-- Run a continuation that was chained on `onReadyPromise` once the promise
fulfills.  It reads `this.languageClient` at run time: if set, the real
transport call fires; if not (the failure path), the body raises a
TypeError, which a request surfaces as a rejection of the caller's promise
and a notification swallows (fire-and-forget). -/
def runContinuation (clientSet : Bool) : Call → List Effect
  | Call.request n =>
      if clientSet then [Effect.transportRequest n]
      else [Effect.rejected n ErrKind.undefinedTransport]
  | Call.notification n =>
      if clientSet then [Effect.transportNotification n]
      else []

/-- `languageClient.onReady()` fulfills: the constructor's success handler
(registered first) sets `this.configuration` and `this.languageClient`,
then the queued continuations run in registration order. -/
def resolveReady (s : ClientState) : ClientState × List Effect :=
  let s1 : ClientState :=
    { s with languageClient := true, configuration := true, pending := [] }
  (s1, (s.pending.map (runContinuation s1.languageClient)).flatten)

/-- `languageClient.onReady()` rejects: the constructor's failure handler
(registered first) clears `this.isSupported` and returns normally, so
`onReadyPromise` fulfills and the queued continuations still run — with
`this.languageClient` still unset. -/
def resolveFailed (s : ClientState) : ClientState × List Effect :=
  let s1 : ClientState := { s with isSupported := false, pending := [] }
  (s1, (s.pending.map (runContinuation s1.languageClient)).flatten)

/-- Submit a sequence of calls through the gate, concatenating the effect
traces. -/
def submitCalls : ClientState → List Call → ClientState × List Effect
  | s, [] => (s, [])
  | s, c :: cs =>
    let r := submitCall s c
    let rest := submitCalls r.1 cs
    (rest.1, r.2 ++ rest.2)

/-- The transport effect a call produces when it finally fires. -/
def transportEffect : Call → Effect
  | Call.request n => Effect.transportRequest n
  | Call.notification n => Effect.transportNotification n

/-- Concrete three-call sequence used to witness the FIFO property. -/
def demoCalls : List Call :=
  [Call.request "cpptools/queryDefaultPaths",
   Call.notification "cpptools/pauseParsing",
   Call.request "cpptools/requestNavigationList"]

/-- Concrete post-failure state used to witness the amended C5 behaviour:
one request and one notification were queued before initialization failed. -/
def failedDemoState : ClientState :=
  { initPending with
      pending := [Call.request "cpptools/didSwitchHeaderSource",
                  Call.notification "cpptools/didChangeFolderSettings"] }

/-! ## Protocol router: `createProtocolFilter` (protocolFilter.ts) -/

/-- Modelled from the spec: `ClientCollection` lives in clientCollection.ts,
which is not under src/.  `registered` pairs a client identifier with its
workspace-folder path (as path segments); `activeClient` is the foreground
client.  `ownerOf` is a longest-matching-prefix search over the registered
folders, falling back to the first-registered (ownerless) client, and
`checkOwnership me doc` holds iff `ownerOf doc` is `me`. -/
structure ClientCollection where
  registered : List (Nat × List String)
  activeClient : Nat
deriving DecidableEq, Repr

/-- Modelled from the spec: longest-matching-prefix owner search with
fallback to the first-registered client. -/
def ownerOf (cc : ClientCollection) (docPath : List String) : Nat :=
  let matched := cc.registered.filter (fun r => r.2.isPrefixOf docPath)
  match matched.foldl
      (fun best r =>
        match best with
        | none => some r
        | some b => if b.2.length < r.2.length then some r else some b)
      none with
  | some r => r.1
  | none => (cc.registered.headD (0, [])).1

/-- Modelled from the spec: `checkOwnership(session, document)` is true iff
the owner of the document is that session. -/
def checkOwnership (cc : ClientCollection) (me : Nat) (docPath : List String) : Bool :=
  ownerOf cc docPath == me

/-- Observable effects of the router's lifecycle handlers, in chronological
order. -/
inductive MWEffect where
  /-- `me.TrackedDocuments.add(document)`. -/
  | trackDoc (d : Doc)
  /-- `me.TrackedDocuments.delete(document)`. -/
  | untrackDoc (d : Doc)
  /-- `console.assert(me.TrackedDocuments.has(document))`, recording the
  asserted value. -/
  | assertTracked (ok : Bool)
  /-- `sendMessage(document)`: the transport call fires. -/
  | sendMessage (d : Doc)
deriving DecidableEq, Repr

/-- `Set.add`: insert without duplicating. -/
def addDoc (tracked : List Doc) (d : Doc) : List Doc :=
  if d ∈ tracked then tracked else tracked ++ [d]

/-- `Set.delete`. -/
def removeDoc (tracked : List Doc) (d : Doc) : List Doc :=
  tracked.filter (fun x => x != d)

/-- The router's `didOpen` handler (protocolFilter.ts lines 20-25): accept
iff `checkOwnership` holds; on acceptance, add to the tracked set first,
then fire the transport call. -/
def didOpen (cc : ClientCollection) (me : Nat) (tracked : List Doc) (d : Doc) :
    List Doc × List MWEffect :=
  if checkOwnership cc me d.path then
    (addDoc tracked d, [MWEffect.trackDoc d, MWEffect.sendMessage d])
  else
    (tracked, [])

/-- The router's `didClose` handler (protocolFilter.ts lines 35-41): accept
iff this client is the active client; assert the document was tracked,
remove it, then fire the transport call. -/
def didClose (cc : ClientCollection) (me : Nat) (tracked : List Doc) (d : Doc) :
    List Doc × List MWEffect :=
  if cc.activeClient == me then
    (removeDoc tracked d,
     [MWEffect.assertTracked (tracked.contains d), MWEffect.untrackDoc d,
      MWEffect.sendMessage d])
  else
    (tracked, [])

/-- The non-lifecycle editor-triggered entries of the middleware returned by
`createProtocolFilter` (protocolFilter.ts lines 26-60). -/
inductive EditorCall where
  | didChange
  | willSave
  | willSaveWaitUntil
  | didSave
  | provideCompletionItem
  | resolveCompletionItem
  | provideHover
  | provideSignatureHelp
  | provideDefinition
  | provideReferences
  | provideDocumentHighlights
  | provideDocumentSymbols
  | provideWorkspaceSymbols
  | provideCodeActions
  | provideCodeLenses
  | resolveCodeLens
  | provideDocumentFormattingEdits
  | provideDocumentRangeFormattingEdits
  | provideOnTypeFormattingEdits
  | provideRenameEdits
  | provideDocumentLinks
  | resolveDocumentLink
deriving DecidableEq, Repr

/-- The three handler shapes the filter builds (lines 12-17 and 28-33). -/
inductive HandlerKind where
  /-- `defaultHandler`: run the callback only when active; returns nothing. -/
  | defaultHandler
  /-- `invoke1` .. `invoke5`: run the callback only when active; otherwise
  return `null`. -/
  | invokeHandler
  /-- the dedicated `willSaveWaitUntil` entry: otherwise resolve to `[]`. -/
  | willSaveWaitUntilHandler
deriving DecidableEq, Repr

/-- Which handler each middleware entry is bound to (lines 26-60). -/
def middlewareHandler : EditorCall → HandlerKind
  | EditorCall.didChange => HandlerKind.defaultHandler
  | EditorCall.willSave => HandlerKind.defaultHandler
  | EditorCall.didSave => HandlerKind.defaultHandler
  | EditorCall.willSaveWaitUntil => HandlerKind.willSaveWaitUntilHandler
  | _ => HandlerKind.invokeHandler

/-- Result of one routed call: either the callback ran (the call reached the
underlying transport) or the call was suppressed with the handler's neutral
value. -/
inductive CallResult where
  | forwarded
  /-- `defaultHandler` fell through: `undefined`. -/
  | suppressedVoid
  /-- `invokeN` returned `null`. -/
  | suppressedNull
  /-- `willSaveWaitUntil` returned `Promise.resolve([])`. -/
  | suppressedEmptyArray
deriving DecidableEq, Repr

/-- Run one handler shape with the `clients.ActiveClient === me` test. -/
def runHandler (activeIsMe : Bool) : HandlerKind → CallResult
  | HandlerKind.defaultHandler =>
      if activeIsMe then CallResult.forwarded else CallResult.suppressedVoid
  | HandlerKind.invokeHandler =>
      if activeIsMe then CallResult.forwarded else CallResult.suppressedNull
  | HandlerKind.willSaveWaitUntilHandler =>
      if activeIsMe then CallResult.forwarded else CallResult.suppressedEmptyArray

/-- Route a non-lifecycle editor call through client `me`'s middleware. -/
def routeEditorCall (cc : ClientCollection) (me : Nat) (c : EditorCall) : CallResult :=
  runHandler (cc.activeClient == me) (middlewareHandler c)

/-- A suppression is neutral: not a forward, and none of the three neutral
results is an error. -/
def CallResult.isNeutralSuppression : CallResult → Bool
  | CallResult.forwarded => false
  | _ => true

/-- Two-client collection used in the routing examples: client 0 owns
folder a and is active, client 1 owns folder b. -/
def ccTwoFolders : ClientCollection :=
  { registered := [(0, ["a"]), (1, ["b"])], activeClient := 0 }

/-- A document inside folder b, owned by client 1. -/
def docInB : Doc := { path := ["b", "file.cpp"] }

/-! ## `takeOwnership`, `onInterval`, `dispose` -/

/-- Protocol name of `DidOpenNotification` (configurations.ts line 347). -/
def didOpenNotificationName : String := "textDocument/didOpen"

/-- Protocol name of `IntervalTimerNotification` (line 358). -/
def intervalTimerNotificationName : String := "cpptools/onIntervalTimer"

/-- `DefaultClient.takeOwnership` (lines 653-664): send the didOpen
notification through the gate, then add the document to the tracked set. -/
def takeOwnership (s : ClientState) (d : Doc) : ClientState × List Effect :=
  let r := notifyWhenReady s didOpenNotificationName
  ({ r.1 with trackedDocuments := addDoc r.1.trackedDocuments d },
   r.2 ++ [Effect.addTracked d])

/-- `DefaultClient.onInterval` (lines 1003-1010): interval ticks are
discarded, not queued, until both `this.languageClient` and
`this.configuration` are set. -/
def onInterval (s : ClientState) : ClientState × List Effect :=
  if s.languageClient && s.configuration then
    (s, [Effect.transportNotification intervalTimerNotificationName,
         Effect.checkCppProperties])
  else
    (s, [])

/-- `DefaultClient.dispose` (lines 1012-1024): stop the transport when one
exists (else start from an already-resolved promise), dispose every
registered disposable, then dispose every model binding.  The tracked
document set is not touched. -/
def dispose (s : ClientState) : ClientState × List Effect :=
  ({ s with disposables := 0, modelDisposed := true },
   (if s.languageClient then [Effect.stopTransport] else [])
     ++ List.replicate s.disposables Effect.disposeDisposable
     ++ [Effect.disposeModelBindings])

/-- A client that reached readiness: transport and configuration set. -/
def readyDemoState : ClientState :=
  { initPending with languageClient := true, configuration := true }

/-- A document inside folder a. -/
def docMain : Doc := { path := ["a", "main.cpp"] }

/-- A never-ready client that tracks one document. -/
def trackedDemoState : ClientState :=
  { initPending with trackedDocuments := [docMain] }

/-! ## Theorems -/

/-- The single-root and multi-root crash-loop notices have different wording
for every server name (the multi-root one embeds the folder name and is
strictly longer). -/
theorem crashMessage_ne (s : String) : crashMessage true s ≠ crashMessage false s := by
  simp only [crashMessage, if_pos, if_neg, Bool.false_eq_true, ite_true, ite_false]
  intro h
  have hl := congrArg String.length h
  simp only [String.length_append] at hl
  have h1 : ("The language server for \x27").length = 25 := rfl
  have h2 :
      ("\x27 crashed 5 times in the last 3 minutes. It will not be restarted.").length
        = 66 := rfl
  have h3 :
      ("The language server crashed 5 times in the last 3 minutes. It will not be restarted.").length
        = 84 := rfl
  omega

/-- Record-length invariant: whenever the closed handler hands a crash record
to a replacement client, that record has at most 4 entries; since a client
starts with `crashTimes = []`, every record a handler invocation ever sees
has at most 4 entries. -/
theorem transferred_record_bounded (crashTimes : List Int) (now : Int)
    (multiRoot : Bool) (serverName : String) (h : crashTimes.length ≤ 4) :
    ∀ r, (errorHandlerClosed crashTimes now multiRoot serverName).transferredCrashTimes = some r →
      r.length ≤ 4 := by
  intro r hr
  by_cases h5 : (crashTimes ++ [now]).length < 5
  · simp only [errorHandlerClosed, if_pos h5] at hr
    cases hr
    simp only [List.length_append, List.length_cons, List.length_nil] at h5 ⊢
    omega
  · by_cases he : (crashTimes ++ [now]).getLastD 0 - (crashTimes ++ [now]).headD 0 ≤ 3 * 60 * 1000
    · simp only [errorHandlerClosed, if_neg h5, if_pos he] at hr
      exact Option.noConfusion hr
    · simp only [errorHandlerClosed, if_neg h5, if_neg he] at hr
      cases hr
      simp only [List.length_tail, List.length_append, List.length_cons, List.length_nil]
      omega

/-- C1: a crash event that, after appending the new timestamp, leaves at
least 5 entries whose oldest-to-newest span is at most 3 minutes makes the
policy stop permanently: it issues the tear-down registry call
(`allClients.replace(this, false)`), migrates no crash record to any
replacement, surfaces the (non-blocking `showErrorMessage`) failure notice,
whose single-root and multi-root wordings differ, and returns
`CloseAction.DoNotRestart`. -/
theorem crash_loop_stops_permanently
    (crashTimes : List Int) (now : Int) (multiRoot : Bool) (serverName : String)
    (hlen : 5 ≤ (crashTimes ++ [now]).length)
    (helapsed : (crashTimes ++ [now]).getLastD 0 - (crashTimes ++ [now]).headD 0
      ≤ 3 * 60 * 1000) :
    (errorHandlerClosed crashTimes now multiRoot serverName).registryCall.tearsDownWithoutReplacement
        = true ∧
    (errorHandlerClosed crashTimes now multiRoot serverName).transferredCrashTimes = none ∧
    (errorHandlerClosed crashTimes now multiRoot serverName).errorMessage
        = some (crashMessage multiRoot serverName) ∧
    (errorHandlerClosed crashTimes now multiRoot serverName).closeAction
        = CloseAction.DoNotRestart ∧
    crashMessage true serverName ≠ crashMessage false serverName := by
  have h5 : ¬ (crashTimes ++ [now]).length < 5 := by omega
  simp only [errorHandlerClosed, if_neg h5, if_pos helapsed]
  refine ⟨?_, ?_, ?_, ?_, ?_⟩ <;>
    first
      | rfl
      | trivial
      | exact crashMessage_ne serverName

/-- C1 witness: the spec's own example record t, t+30s, t+40s, t+50s with a
new crash at t+60s (5 events inside the 3-minute window). -/
theorem crash_loop_stops_permanently_witness :
    5 ≤ (([0, 30000, 40000, 50000] : List Int) ++ [60000]).length ∧
    (([0, 30000, 40000, 50000] : List Int) ++ [60000]).getLastD 0 -
      (([0, 30000, 40000, 50000] : List Int) ++ [60000]).headD 0 ≤ 3 * 60 * 1000 ∧
    ((errorHandlerClosed [0, 30000, 40000, 50000] 60000 false "untitled").registryCall.tearsDownWithoutReplacement
        = true ∧
     (errorHandlerClosed [0, 30000, 40000, 50000] 60000 false "untitled").transferredCrashTimes
        = none ∧
     (errorHandlerClosed [0, 30000, 40000, 50000] 60000 false "untitled").errorMessage
        = some (crashMessage false "untitled") ∧
     (errorHandlerClosed [0, 30000, 40000, 50000] 60000 false "untitled").closeAction
        = CloseAction.DoNotRestart ∧
     crashMessage true "untitled" ≠ crashMessage false "untitled") :=
  ⟨by decide, by decide,
    crash_loop_stops_permanently [0, 30000, 40000, 50000] 60000 false "untitled"
      (by decide) (by decide)⟩

/-- C2: a crash event that leaves fewer than 5 recorded timestamps makes the
policy replace the client transparently (`allClients.replace(this, true)`),
hand the replacement the whole record including the new entry, show no
message, and not restart beyond the replace instruction
(`CloseAction.DoNotRestart`). -/
theorem crash_below_threshold_replaces
    (crashTimes : List Int) (now : Int) (multiRoot : Bool) (serverName : String)
    (hlen : (crashTimes ++ [now]).length < 5) :
    (errorHandlerClosed crashTimes now multiRoot serverName).registryCall
        = RegistryCall.replace true ∧
    (errorHandlerClosed crashTimes now multiRoot serverName).transferredCrashTimes
        = some (crashTimes ++ [now]) ∧
    (errorHandlerClosed crashTimes now multiRoot serverName).newCrashTimes
        = crashTimes ++ [now] ∧
    (errorHandlerClosed crashTimes now multiRoot serverName).errorMessage = none ∧
    (errorHandlerClosed crashTimes now multiRoot serverName).closeAction
        = CloseAction.DoNotRestart := by
  simp only [errorHandlerClosed, if_pos hlen]
  refine ⟨?_, ?_, ?_, ?_, ?_⟩ <;> first | rfl | trivial

/-- C2 witness: a second crash on a record holding one earlier timestamp. -/
theorem crash_below_threshold_replaces_witness :
    (([100] : List Int) ++ [200]).length < 5 ∧
    ((errorHandlerClosed [100] 200 true "folder").registryCall = RegistryCall.replace true ∧
     (errorHandlerClosed [100] 200 true "folder").transferredCrashTimes
        = some (([100] : List Int) ++ [200]) ∧
     (errorHandlerClosed [100] 200 true "folder").newCrashTimes = ([100] : List Int) ++ [200] ∧
     (errorHandlerClosed [100] 200 true "folder").errorMessage = none ∧
     (errorHandlerClosed [100] 200 true "folder").closeAction = CloseAction.DoNotRestart) :=
  ⟨by decide, crash_below_threshold_replaces [100] 200 true "folder" (by decide)⟩

/-- C3: a crash event that leaves at least 5 entries spread over more than
3 minutes makes the policy drop exactly the oldest timestamp (the record
becomes the tail of the appended record: the previous entries minus the
oldest, plus the new one — 4 entries in all, given the record-length
invariant `transferred_record_bounded`), replace the client transparently
and migrate that trimmed record to the replacement. -/
theorem crash_spread_drops_oldest_and_replaces
    (crashTimes : List Int) (now : Int) (multiRoot : Bool) (serverName : String)
    (hrec : crashTimes.length ≤ 4)
    (hlen : 5 ≤ (crashTimes ++ [now]).length)
    (helapsed : 3 * 60 * 1000 <
      (crashTimes ++ [now]).getLastD 0 - (crashTimes ++ [now]).headD 0) :
    (errorHandlerClosed crashTimes now multiRoot serverName).registryCall
        = RegistryCall.replace true ∧
    (errorHandlerClosed crashTimes now multiRoot serverName).newCrashTimes
        = crashTimes.tail ++ [now] ∧
    (errorHandlerClosed crashTimes now multiRoot serverName).transferredCrashTimes
        = some (crashTimes.tail ++ [now]) ∧
    (crashTimes.tail ++ [now]).length = 4 ∧
    (errorHandlerClosed crashTimes now multiRoot serverName).errorMessage = none ∧
    (errorHandlerClosed crashTimes now multiRoot serverName).closeAction
        = CloseAction.DoNotRestart := by
  have h5 : ¬ (crashTimes ++ [now]).length < 5 := by omega
  have h6 : ¬ ((crashTimes ++ [now]).getLastD 0 - (crashTimes ++ [now]).headD 0
      ≤ 3 * 60 * 1000) := by omega
  have htail : (crashTimes ++ [now]).tail = crashTimes.tail ++ [now] := by
    cases crashTimes with
    | nil => simp at hlen
    | cons a t => simp
  have hlen4 : (crashTimes.tail ++ [now]).length = 4 := by
    simp only [List.length_append, List.length_tail, List.length_cons, List.length_nil]
    simp only [List.length_append, List.length_cons, List.length_nil] at hlen
    omega
  simp only [errorHandlerClosed, if_neg h5, if_neg h6, htail]
  refine ⟨?_, ?_, ?_, ?_, ?_, ?_⟩ <;> first | rfl | trivial

/-- C3 witness: the spec's own example record t, t+60s, t+130s, t+200s with
a new crash at t+250s (5 events spanning 250s > 180s). -/
theorem crash_spread_drops_oldest_and_replaces_witness :
    ([0, 60000, 130000, 200000] : List Int).length ≤ 4 ∧
    5 ≤ (([0, 60000, 130000, 200000] : List Int) ++ [250000]).length ∧
    3 * 60 * 1000 < (([0, 60000, 130000, 200000] : List Int) ++ [250000]).getLastD 0 -
      (([0, 60000, 130000, 200000] : List Int) ++ [250000]).headD 0 ∧
    ((errorHandlerClosed [0, 60000, 130000, 200000] 250000 false "untitled").registryCall
        = RegistryCall.replace true ∧
     (errorHandlerClosed [0, 60000, 130000, 200000] 250000 false "untitled").newCrashTimes
        = ([0, 60000, 130000, 200000] : List Int).tail ++ [250000] ∧
     (errorHandlerClosed [0, 60000, 130000, 200000] 250000 false "untitled").transferredCrashTimes
        = some (([0, 60000, 130000, 200000] : List Int).tail ++ [250000]) ∧
     (([0, 60000, 130000, 200000] : List Int).tail ++ [250000]).length = 4 ∧
     (errorHandlerClosed [0, 60000, 130000, 200000] 250000 false "untitled").errorMessage = none ∧
     (errorHandlerClosed [0, 60000, 130000, 200000] 250000 false "untitled").closeAction
        = CloseAction.DoNotRestart) :=
  ⟨by decide, by decide, by decide,
    crash_spread_drops_oldest_and_replaces [0, 60000, 130000, 200000] 250000 false "untitled"
      (by decide) (by decide) (by decide)⟩

/-- While the gate is pending, either wrapper queues the call and produces
no effect. -/
theorem submitCall_pending (s : ClientState) (c : Call)
    (hlc : s.languageClient = false) (hsup : s.isSupported = true)
    (hrp : s.onReadyPromise = true) :
    submitCall s c = ({ s with pending := s.pending ++ [c] }, []) := by
  cases c <;> simp [submitCall, requestWhenReady, notifyWhenReady, hlc, hsup, hrp]

/-- While the gate is pending, a whole sequence of calls is queued in
submission order and produces no effect. -/
theorem submitCalls_pending (cs : List Call) (s : ClientState)
    (hlc : s.languageClient = false) (hsup : s.isSupported = true)
    (hrp : s.onReadyPromise = true) :
    submitCalls s cs = ({ s with pending := s.pending ++ cs }, []) := by
  induction cs generalizing s with
  | nil => simp [submitCalls]
  | cons c cs ih =>
    have h := submitCall_pending s c hlc hsup hrp
    have ih' := ih { s with pending := s.pending ++ [c] } hlc hsup hrp
    simp only [submitCalls, h, ih', List.append_assoc, List.singleton_append,
      List.append_nil, List.nil_append]

/-- Once the transport is available every queued continuation fires its real
transport call. -/
theorem flatten_runContinuation_true (q : List Call) :
    (q.map (runContinuation true)).flatten = q.map transportEffect := by
  induction q with
  | nil => rfl
  | cons c q ih => cases c <;> simp [runContinuation, transportEffect, ih]

/-- C4: all calls submitted while the gate is pending are deferred silently,
and when the gate becomes ready they hit the transport exactly in FIFO
submission order (after whatever was queued before them, also in order). -/
theorem gate_fifo (s : ClientState) (cs : List Call)
    (hlc : s.languageClient = false) (hsup : s.isSupported = true)
    (hrp : s.onReadyPromise = true) :
    (submitCalls s cs).2 = [] ∧
    (resolveReady (submitCalls s cs).1).2 = (s.pending ++ cs).map transportEffect := by
  rw [submitCalls_pending cs s hlc hsup hrp]
  refine ⟨rfl, ?_⟩
  simp [resolveReady, flatten_runContinuation_true]

/-- C4 witness: three calls queued on a fresh pending client fire in
submission order on readiness. -/
theorem gate_fifo_witness :
    initPending.languageClient = false ∧ initPending.isSupported = true ∧
    initPending.onReadyPromise = true ∧
    ((submitCalls initPending demoCalls).2 = [] ∧
     (resolveReady (submitCalls initPending demoCalls).1).2
        = (initPending.pending ++ demoCalls).map transportEffect) :=
  ⟨rfl, rfl, rfl, gate_fifo initPending demoCalls rfl rfl rfl⟩

/-- Continuations run against a still-unset transport: each queued request
surfaces the undefined-transport error, each queued notification vanishes. -/
theorem flatten_runContinuation_false (q : List Call) :
    (q.map (runContinuation false)).flatten
      = q.filterMap (fun c =>
          match c with
          | Call.request m => some (Effect.rejected m ErrKind.undefinedTransport)
          | Call.notification _ => none) := by
  induction q with
  | nil => rfl
  | cons c q ih => cases c <;> simp [runContinuation, ih]

/-- C5 counterexample: queue one request on a fresh pending client, then let
initialization fail.  The queued continuation is rejected with the generic
undefined-transport TypeError, not with the distinguished
"Unsupported client" rejection the claim requires. -/
theorem gate_failed_counterexample :
    (resolveFailed (requestWhenReady initPending "cpptools/goToDeclaration").1).2
        = [Effect.rejected "cpptools/goToDeclaration" ErrKind.undefinedTransport] ∧
    Effect.rejected "cpptools/goToDeclaration" ErrKind.unsupportedClient ∉
      (resolveFailed (requestWhenReady initPending "cpptools/goToDeclaration").1).2 := by
  refine ⟨rfl, ?_⟩
  simp [resolveFailed, requestWhenReady, initPending, runContinuation]

/-- C5 amended: when the gate fails, queued requests are rejected with the
generic undefined-transport error (not the distinguished unsupported one),
queued notifications are dropped, and no transport call fires; afterwards a
request-shaped call rejects immediately with the distinguished
"Unsupported client" error without queuing, and a notification is silently
dropped without queuing. -/
theorem gate_failed_amended (s : ClientState) (n : String)
    (hlc : s.languageClient = false) :
    (resolveFailed s).2
        = s.pending.filterMap (fun c =>
            match c with
            | Call.request m => some (Effect.rejected m ErrKind.undefinedTransport)
            | Call.notification _ => none) ∧
    (∀ m, Effect.transportRequest m ∉ (resolveFailed s).2) ∧
    (∀ m, Effect.transportNotification m ∉ (resolveFailed s).2) ∧
    requestWhenReady (resolveFailed s).1 n
        = ((resolveFailed s).1, [Effect.rejected n ErrKind.unsupportedClient]) ∧
    notifyWhenReady (resolveFailed s).1 n = ((resolveFailed s).1, []) := by
  have hflat : (resolveFailed s).2
      = s.pending.filterMap (fun c =>
          match c with
          | Call.request m => some (Effect.rejected m ErrKind.undefinedTransport)
          | Call.notification _ => none) := by
    simp [resolveFailed, hlc, flatten_runContinuation_false]
  refine ⟨hflat, ?_, ?_, ?_, ?_⟩
  · intro m hm
    rw [hflat] at hm
    rcases List.mem_filterMap.mp hm with ⟨c, _, hfc⟩
    cases c <;> simp at hfc
  · intro m hm
    rw [hflat] at hm
    rcases List.mem_filterMap.mp hm with ⟨c, _, hfc⟩
    cases c <;> simp at hfc
  · simp [requestWhenReady, resolveFailed, hlc]
  · simp [notifyWhenReady, resolveFailed, hlc]

/-- C5 amended witness: the queued request is rejected with the
undefined-transport error, the queued notification is dropped, and a later
request rejects immediately with the distinguished unsupported error. -/
theorem gate_failed_amended_witness :
    failedDemoState.languageClient = false ∧
    ((resolveFailed failedDemoState).2
        = failedDemoState.pending.filterMap (fun c =>
            match c with
            | Call.request m => some (Effect.rejected m ErrKind.undefinedTransport)
            | Call.notification _ => none) ∧
     (∀ m, Effect.transportRequest m ∉ (resolveFailed failedDemoState).2) ∧
     (∀ m, Effect.transportNotification m ∉ (resolveFailed failedDemoState).2) ∧
     requestWhenReady (resolveFailed failedDemoState).1 "cpptools/goToDeclaration"
        = ((resolveFailed failedDemoState).1,
           [Effect.rejected "cpptools/goToDeclaration" ErrKind.unsupportedClient]) ∧
     notifyWhenReady (resolveFailed failedDemoState).1 "cpptools/goToDeclaration"
        = ((resolveFailed failedDemoState).1, [])) :=
  ⟨rfl, gate_failed_amended failedDemoState "cpptools/goToDeclaration" rfl⟩

/-- C6: every non-lifecycle editor-triggered call routed through a client's
middleware reaches the transport exactly when that client is the active
client, and otherwise yields the handler's neutral, error-free suppression
value. -/
theorem router_forwards_iff_active (cc : ClientCollection) (me : Nat) (c : EditorCall) :
    (routeEditorCall cc me c = CallResult.forwarded ↔ cc.activeClient = me) ∧
    (routeEditorCall cc me c).isNeutralSuppression = !(cc.activeClient == me) := by
  cases hb : cc.activeClient == me <;> cases c <;>
    simp_all [routeEditorCall, middlewareHandler, runHandler,
      CallResult.isNeutralSuppression]

/-- C6 witness: a hover request on the inactive client 1 is suppressed with
`null`, while on the active client 0 it forwards. -/
theorem router_forwards_iff_active_witness :
    ((routeEditorCall ccTwoFolders 1 EditorCall.provideHover = CallResult.forwarded ↔
        ccTwoFolders.activeClient = 1) ∧
     (routeEditorCall ccTwoFolders 1 EditorCall.provideHover).isNeutralSuppression
        = !(ccTwoFolders.activeClient == 1)) ∧
    routeEditorCall ccTwoFolders 1 EditorCall.provideHover = CallResult.suppressedNull ∧
    routeEditorCall ccTwoFolders 0 EditorCall.provideHover = CallResult.forwarded :=
  ⟨router_forwards_iff_active ccTwoFolders 1 EditorCall.provideHover, rfl, rfl⟩

/-- C7 counterexample: client 0 is active but does not own the document in
folder b; its `didClose` handler nevertheless accepts the event and fires
the transport call, so close events are not gated by `checkOwnership`. -/
theorem didClose_ownership_counterexample :
    checkOwnership ccTwoFolders 0 docInB.path = false ∧
    (didClose ccTwoFolders 0 [docInB] docInB).2
      = [MWEffect.assertTracked true, MWEffect.untrackDoc docInB,
         MWEffect.sendMessage docInB] ∧
    MWEffect.sendMessage docInB ∈ (didClose ccTwoFolders 0 [docInB] docInB).2 := by
  refine ⟨?_, rfl, ?_⟩ <;> decide

/-- C7 amended: `didOpen` is accepted exactly when `checkOwnership` holds,
and on acceptance the document joins the tracked set with the tracking
effect strictly before the transport send; `didClose` however is accepted
exactly when the client is the active client (not ownership-gated). -/
theorem lifecycle_router_amended (cc : ClientCollection) (me : Nat)
    (tracked : List Doc) (d : Doc) :
    (MWEffect.sendMessage d ∈ (didOpen cc me tracked d).2 ↔
        checkOwnership cc me d.path = true) ∧
    (checkOwnership cc me d.path = true →
        (didOpen cc me tracked d).2 = [MWEffect.trackDoc d, MWEffect.sendMessage d] ∧
        d ∈ (didOpen cc me tracked d).1) ∧
    (MWEffect.sendMessage d ∈ (didClose cc me tracked d).2 ↔ cc.activeClient = me) ∧
    (cc.activeClient = me →
        (didClose cc me tracked d).2
          = [MWEffect.assertTracked (tracked.contains d), MWEffect.untrackDoc d,
             MWEffect.sendMessage d]) := by
  have haddmem : d ∈ addDoc tracked d := by
    simp only [addDoc]
    by_cases h : d ∈ tracked
    · simp [h]
    · simp [h]
  refine ⟨?_, ?_, ?_, ?_⟩
  · by_cases h : checkOwnership cc me d.path <;> simp [didOpen, h]
  · intro h
    simp [didOpen, h, haddmem]
  · cases hb : cc.activeClient == me <;> simp_all [didClose]
  · intro h
    simp [didClose, h]

/-- C7 amended witness: client 1 owns the document in folder b, so its
`didOpen` is accepted with the track-then-send ordering, while its
`didClose` is suppressed because client 0 is active. -/
theorem lifecycle_router_amended_witness :
    (MWEffect.sendMessage docInB ∈ (didOpen ccTwoFolders 1 [] docInB).2 ↔
        checkOwnership ccTwoFolders 1 docInB.path = true) ∧
    (checkOwnership ccTwoFolders 1 docInB.path = true →
        (didOpen ccTwoFolders 1 [] docInB).2
          = [MWEffect.trackDoc docInB, MWEffect.sendMessage docInB] ∧
        docInB ∈ (didOpen ccTwoFolders 1 [] docInB).1) ∧
    (MWEffect.sendMessage docInB ∈ (didClose ccTwoFolders 1 [] docInB).2 ↔
        ccTwoFolders.activeClient = 1) ∧
    (ccTwoFolders.activeClient = 1 →
        (didClose ccTwoFolders 1 [] docInB).2
          = [MWEffect.assertTracked (List.contains [] docInB),
             MWEffect.untrackDoc docInB, MWEffect.sendMessage docInB]) :=
  lifecycle_router_amended ccTwoFolders 1 [] docInB

/-- Adding a document to a set always leaves it a member. -/
theorem mem_addDoc (tracked : List Doc) (d : Doc) : d ∈ addDoc tracked d := by
  simp only [addDoc]
  by_cases h : d ∈ tracked
  · simp [h]
  · simp [h]

/-- C8: before the client is ready, `onInterval` is a complete no-op — the
state (including the deferred-call queue) is unchanged and no effect, error
or otherwise, is produced; once ready, it sends the interval heartbeat and
re-checks the on-disk configuration. -/
theorem onInterval_discards_before_ready (s : ClientState) :
    (s.languageClient = false → onInterval s = (s, [])) ∧
    (s.languageClient = true → s.configuration = true →
      onInterval s
        = (s, [Effect.transportNotification intervalTimerNotificationName,
               Effect.checkCppProperties])) := by
  constructor
  · intro h
    simp [onInterval, h]
  · intro h1 h2
    simp [onInterval, h1, h2]

/-- C8 witness: a pending client drops the tick; a ready client sends the
heartbeat and re-checks configuration. -/
theorem onInterval_discards_before_ready_witness :
    onInterval initPending = (initPending, []) ∧
    onInterval readyDemoState
      = (readyDemoState,
         [Effect.transportNotification intervalTimerNotificationName,
          Effect.checkCppProperties]) :=
  ⟨(onInterval_discards_before_ready initPending).1 rfl,
   (onInterval_discards_before_ready readyDemoState).2 rfl rfl⟩

/-- C9 counterexample: disposing a client that tracks a document leaves the
tracked-document set untouched — `dispose` does not clear it, contrary to
the claim. -/
theorem dispose_counterexample :
    (dispose trackedDemoState).1.trackedDocuments = [docMain] ∧
    (dispose trackedDemoState).1.trackedDocuments ≠ ([] : List Doc) := by
  refine ⟨rfl, ?_⟩
  decide

/-- C9 amended: `dispose` stops the transport when one exists, disposes
every registered disposable and every model binding, and completes (as a
total function, off an already-resolved promise) even on a client that
never reached readiness — but it leaves the tracked-document set exactly as
it was. -/
theorem dispose_amended (s : ClientState) :
    (s.languageClient = true → Effect.stopTransport ∈ (dispose s).2) ∧
    (s.languageClient = false →
      (dispose s).2
        = List.replicate s.disposables Effect.disposeDisposable
            ++ [Effect.disposeModelBindings]) ∧
    Effect.disposeModelBindings ∈ (dispose s).2 ∧
    (dispose s).1.modelDisposed = true ∧
    (dispose s).1.disposables = 0 ∧
    (dispose s).1.trackedDocuments = s.trackedDocuments := by
  refine ⟨?_, ?_, ?_, rfl, rfl, rfl⟩
  · intro h
    simp [dispose, h]
  · intro h
    simp [dispose, h]
  · simp [dispose]

/-- C9 amended witness: a ready client's disposal stops the transport; a
never-ready tracking client's disposal completes without a stop call and
leaves its tracked document in place. -/
theorem dispose_amended_witness :
    Effect.stopTransport ∈ (dispose readyDemoState).2 ∧
    (dispose trackedDemoState).2
      = List.replicate trackedDemoState.disposables Effect.disposeDisposable
          ++ [Effect.disposeModelBindings] ∧
    (dispose trackedDemoState).1.trackedDocuments = trackedDemoState.trackedDocuments :=
  ⟨(dispose_amended readyDemoState).1 rfl,
   (dispose_amended trackedDemoState).2.1 rfl,
   (dispose_amended trackedDemoState).2.2.2.2.2⟩

/-- C10: `takeOwnership` adds the document to the tracked set in every gate
state (the tracking update is the last step of the call itself), and on a
ready client the didOpen notification reaches the transport strictly before
the document is inserted — the reverse of the router's track-then-send
ordering. -/
theorem takeOwnership_tracks_unconditionally (s : ClientState) (d : Doc) :
    d ∈ (takeOwnership s d).1.trackedDocuments ∧
    (takeOwnership s d).2.getLast? = some (Effect.addTracked d) ∧
    (s.languageClient = true →
      (takeOwnership s d).2
        = [Effect.transportNotification didOpenNotificationName,
           Effect.addTracked d]) := by
  by_cases h1 : s.languageClient
  · refine ⟨?_, ?_, ?_⟩ <;>
      simp [takeOwnership, notifyWhenReady, h1, mem_addDoc]
  · by_cases h2 : s.isSupported && s.onReadyPromise
    · refine ⟨?_, ?_, ?_⟩ <;>
        simp [takeOwnership, notifyWhenReady, h1, h2, mem_addDoc]
    · refine ⟨?_, ?_, ?_⟩ <;>
        simp [takeOwnership, notifyWhenReady, h1, h2, mem_addDoc]

/-- C10 witness: on a ready client, taking ownership of a document sends
didOpen first and tracks the document second. -/
theorem takeOwnership_tracks_unconditionally_witness :
    docMain ∈ (takeOwnership readyDemoState docMain).1.trackedDocuments ∧
    (takeOwnership readyDemoState docMain).2.getLast?
      = some (Effect.addTracked docMain) ∧
    (readyDemoState.languageClient = true →
      (takeOwnership readyDemoState docMain).2
        = [Effect.transportNotification didOpenNotificationName,
           Effect.addTracked docMain]) :=
  takeOwnership_tracks_unconditionally readyDemoState docMain

end CppTools
